import Mathlib

/-!
Verification of the energy-splitting core (openstf/model/split_energy.py)
and the Tracy job runner (openstf/tasks/run_tracy.py).

Modelling conventions:
* Python dicts are association lists `List (String × ℚ)`; Python dicts have
  unique keys, and iteration over `mean_coefs.keys()` is iteration over the
  entries in order.  Unguarded lookup `d[k]` is `lookupCoef`, whose failure
  (KeyError) is modelled with `PyResult` = `Option`.
* Numeric values are `ℚ`.  Timestamps/dates on the dataframe index are `ℤ`
  at date granularity, so pandas `index.min().date()` is the minimum entry.
* The scipy `curve_fit` call is an external iterative solver; its output is
  passed to `find_components` as the oracle argument `fitted` (of length
  `len(p0)` by the solver contract).  `zero_bound` only selects the bounds
  handed to the solver (`fit_bounds`), exactly as in the source.
* Database reads (`get_prediction_job`, `get_input_energy_splitting`,
  `get_energy_split_coefs` with and without `mean=True`) and the clock
  (`datetime.utcnow`) are oracle fields of `SplitEnv`; database writes and
  teams alerts are recorded in the `SplitTrace` effect trace.
-/

namespace OpenSTF

/-- Python dict of coefficient name to value, in insertion order. -/
abbrev CoefDict := List (String × ℚ)

/-- Python dict lookup `d[k]` restricted to its successful/failing result:
`none` corresponds to a KeyError. -/
def lookupCoef (k : String) : CoefDict → Option ℚ
  | [] => none
  | (k2, v) :: rest => if k2 = k then some v else lookupCoef k rest

/-- Uncaught Python exceptions are modelled by `Option`: `none` is a raised
KeyError escaping the function, `some` a normal return. -/
abbrev PyResult (α : Type) := Option α

/-- Python `d.update({k: v})`: overwrite the entry for `k` in place if the key
is present, otherwise append it at the end (dicts keep insertion order). -/
def dictUpdate (d : CoefDict) (k : String) (v : ℚ) : CoefDict :=
  if d.any (fun p => p.1 = k) then
    d.map (fun p => if p.1 = k then (k, v) else p)
  else
    d ++ [(k, v)]

/-- `COEF_MAX_PCT_DIFF = 0.3` from split_energy.py. -/
def COEF_MAX_PCT_DIFF : ℚ := 3 / 10

/-- `are_new_coefs_valid(new_coefs, mean_coefs)` from split_energy.py:
loop over the keys of `mean_coefs`; `diff = np.abs(mean_coefs[key] - new_coefs[key])`
(the lookup `new_coefs[key]` may raise KeyError, propagated as `none`);
return `False` as soon as `diff > COEF_MAX_PCT_DIFF * np.abs(mean_coefs[key])`,
and `True` if the loop finishes. -/
def are_new_coefs_valid (new_coefs : CoefDict) : CoefDict → PyResult Bool
  | [] => some true
  | (key, mval) :: rest =>
    (lookupCoef key new_coefs).bind (fun nval =>
      if |mval - nval| > COEF_MAX_PCT_DIFF * |mval| then some false
      else are_new_coefs_valid new_coefs rest)

/-- The input dataframe of `find_components`: a time index, the non-`load`
column names `df.columns[1:]` (wind ref, pv ref, then tdcv profiles), and one
row per timestamp holding the `load` value and the reference values in column
order. -/
structure DFrame where
  index : List ℤ
  refNames : List String
  rows : List (ℚ × List ℚ)
deriving DecidableEq

/-- The `load` column `df.iloc[:, 0]`. -/
def loads (df : DFrame) : List ℚ := df.rows.map Prod.fst

/-- Pandas `Series.min()` / `Index.min()` on a nonempty series
(the empty case, where pandas yields NaN/NaT, is not modelled and theorems
that depend on the extremum assume a nonempty series). -/
def seriesMin {α : Type} [LinearOrder α] [Zero α] : List α → α
  | [] => 0
  | x :: xs => xs.foldl min x

/-- Pandas `Series.max()` / `Index.max()` on a nonempty series. -/
def seriesMax {α : Type} [LinearOrder α] [Zero α] : List α → α
  | [] => 0
  | x :: xs => xs.foldl max x

/-- Dot product, the per-row value of `weighted_sum` (`np.dot(x.T, weights)`
restricted to one row of `x.T`). -/
def dot (xs ys : List ℚ) : ℚ := (List.zipWith (fun a b => a * b) xs ys).sum

/-- One row of the components dataframe built by `find_components`. -/
structure ComponentsRow where
  load : ℚ
  Inschatting : ℚ
  p0 : ℚ
  Windopwek : ℚ
  ZonneOpwek : ℚ
  StandaardVerbruik : ℚ
  Residu : ℚ
deriving DecidableEq

/-- `nedu_scaler = (load.max() - load.min()) / 10`. -/
def nedu_scaler (df : DFrame) : ℚ := (seriesMax (loads df) - seriesMin (loads df)) / 10

/-- Initial guess `p0 = [p_wind_guess, ppv_guess] + (len(df.columns) - 3) * [nedu_scaler]`
with both renewable guesses `1.0`; `len(df.columns) - 3 = refNames.length - 2`. -/
def p0_guess (df : DFrame) : List ℚ :=
  [1, 1] ++ List.replicate (df.refNames.length - 2) (nedu_scaler df)

/-- The fitting bounds handed to the solver: `(0, "inf")` when `zero_bound`
else `("-inf", "inf")`, as `(lower, upper)` with `none` for an infinite end. -/
def fit_bounds (zero_bound : Bool) : Option ℚ × Option ℚ :=
  if zero_bound then (some 0, none) else (none, none)

/-- Post-processing `coefs[coefs < 0.1] = 0` applied to the solver output. -/
def clampSmall (coefs : List ℚ) : List ℚ :=
  coefs.map (fun c => if c < 1 / 10 then 0 else c)

/-- One row of the components frame: `Inschatting` is the weighted sum with the
final coefficients, `p0` the weighted sum with the initial guess,
`Windopwek = wind_ref * coefs[0]`, `Zonne-opwek = pv_ref * coefs[1]`,
`StandaardVerbruik = (df.iloc[:, 3:] * coefs[2:]).sum(axis=1)`, and
`Residu = -1 * components.iloc[:, 0:2].diff(axis=1).iloc[:, 1]`, i.e.
`-1 * (Inschatting - load)`. -/
def mkComponentsRow (coefs p0v : List ℚ) (row : ℚ × List ℚ) : ComponentsRow :=
  let est := dot row.2 coefs
  let base := dot row.2 p0v
  { load := row.1
    Inschatting := est
    p0 := base
    Windopwek := row.2.headD 0 * coefs.headD 0
    ZonneOpwek := row.2.getD 1 0 * coefs.getD 1 0
    StandaardVerbruik := dot (row.2.drop 2) (coefs.drop 2)
    Residu := -1 * (est - row.1) }

/-- `find_components(df, zero_bound)` from split_energy.py, with the output of
the external `scipy.optimize.curve_fit` call supplied as `fitted`.  Clamps the
near-zero coefficients, rebuilds the component columns, and zips the final
coefficients with `df.columns[1:]` into the coefficient dict. -/
def find_components (df : DFrame) (zero_bound : Bool) (fitted : List ℚ) :
    List ComponentsRow × CoefDict :=
  let _bounds := fit_bounds zero_bound
  let coefs := clampSmall fitted
  let p0v := p0_guess df
  (df.rows.map (mkComponentsRow coefs p0v), df.refNames.zip coefs)

/-- One row of the coefficients dataframe produced by
`convert_coefdict_to_coefsdf`. -/
structure CoefRow where
  coef_name : String
  coef_value : ℚ
  pid : ℤ
  date_start : ℤ
  date_end : ℤ
  created : ℤ
deriving DecidableEq

/-- `convert_coefdict_to_coefsdf(pj, input_split_function, coefdict)`: one row
per dict entry with the constant columns `pid`, `date_start = index.min().date()`,
`date_end = index.max().date()` and `created = datetime.utcnow()` (the clock is
the explicit argument `now`). -/
def convert_coefdict_to_coefsdf (pjId : ℤ) (input_split_function : DFrame)
    (coefdict : CoefDict) (now : ℤ) : List CoefRow :=
  coefdict.map (fun p =>
    { coef_name := p.1
      coef_value := p.2
      pid := pjId
      date_start := seriesMin input_split_function.index
      date_end := seriesMax input_split_function.index
      created := now })

/-- The oracle inputs of one `split_energy(pid)` invocation: the prediction-job
id, the input dataframe, the solver output, and the two coefficient reads from
the database (`get_energy_split_coefs(pj, mean=True)` and
`get_energy_split_coefs(pj)`), plus the clock. -/
structure SplitEnv where
  pid : ℤ
  input_split_function : DFrame
  fitted : List ℚ
  mean_coefs : CoefDict
  last_coefdict : CoefDict
  now : ℤ
deriving DecidableEq

/-- The observable outcome of `split_energy`: the returned dataframe, the
attachments of the `post_teams_alert` calls, and the dataframes passed to
`write_energy_splitting_coefficients`. -/
structure SplitTrace where
  returned : List CoefRow
  alerts : List (List CoefRow)
  writes : List (List CoefRow)
deriving DecidableEq

/-- The error series of `split_energy`:
`components[["load", "Inschatting"]].diff(axis=1).iloc[:, 1]`, i.e. per row
`Inschatting - load`. -/
def split_error_list (env : SplitEnv) : List ℚ :=
  ((find_components env.input_split_function true env.fitted).1).map
    (fun r => r.Inschatting - r.load)

/-- `mae = error.abs().mean()`. -/
def split_mae (env : SplitEnv) : ℚ :=
  ((split_error_list env).map (fun e => |e|)).sum / ((split_error_list env).length : ℚ)

/-- The candidate coefficient dict of `split_energy` right after
`coefdict.update({"MAE": mae})`. -/
def split_candidate (env : SplitEnv) : CoefDict :=
  dictUpdate (find_components env.input_split_function true env.fitted).2
    "MAE" (split_mae env)

/-- `coefsdf = convert_coefdict_to_coefsdf(pj, input_split_function, coefdict)`,
the candidate record of the invocation. -/
def split_candidate_df (env : SplitEnv) : List CoefRow :=
  convert_coefdict_to_coefsdf env.pid env.input_split_function (split_candidate env) env.now

/-- `split_energy(pid)` from split_energy.py.  Fit, add the MAE, format the
candidate, validate against the mean coefficients (a KeyError in the validator
propagates); on `False` alert with the candidate record and return the last
known coefficients reformatted, without writing; otherwise append the candidate
record to the database and return it. -/
def split_energy (env : SplitEnv) : PyResult SplitTrace :=
  (are_new_coefs_valid (split_candidate env) env.mean_coefs).map (fun valid =>
    if valid = false then
      { returned := convert_coefdict_to_coefsdf env.pid env.input_split_function
          env.last_coefdict env.now
        alerts := [split_candidate_df env]
        writes := [] }
    else
      { returned := split_candidate_df env
        alerts := []
        writes := [split_candidate_df env] })

/-- One row of the Tracy todolist, together with the outcome oracle
`handlerRaises`: whether executing the job body (parsing the args, fetching the
prediction job and running the task) raises an exception. -/
structure TracyJob where
  id : ℕ
  funcName : String
  args : String
  handlerRaises : Bool
deriving DecidableEq

/-- The observable effects of `run_tracy` on the database and teams channel. -/
inductive TracyEvent where
  | updateJob (id : ℕ) (inprogress : ℕ)
  | postTeamsFailure (id : ℕ)
  | postTeamsSuccess (id : ℕ)
  | deleteJob (id : ℕ)
deriving DecidableEq

/-- The function names `run_tracy` dispatches on (current names and deprecated
aliases). -/
def known_functions : List String :=
  ["train_model", "train_specific_model",
   "optimize_hyperparameters", "optimize_hyperparameters_for_specific_pid"]

/-- The loop body of `run_tracy` for one job: set `inprogress = 1`; on an
unknown function name log and `continue`; otherwise run the handler — if it
raises, set `inprogress = 2` and post the failure message — and in either case
fall through to the success message and the job deletion. -/
def process_tracy_job (job : TracyJob) : List TracyEvent :=
  [TracyEvent.updateJob job.id 1] ++
    (if job.funcName ∈ known_functions then
      (if job.handlerRaises then
        [TracyEvent.updateJob job.id 2, TracyEvent.postTeamsFailure job.id]
      else []) ++
      [TracyEvent.postTeamsSuccess job.id, TracyEvent.deleteJob job.id]
    else [])

/-- `run_tracy(context)` over the todolist fetched with `inprogress=0`
(an empty todolist produces no effects, matching the early return). -/
def run_tracy (jobs : List TracyJob) : List TracyEvent :=
  (jobs.map process_tracy_job).flatten

/-- Concrete one-row dataframe used by witnesses and counterexamples:
`load = 10`, three reference columns all equal to `1`. -/
def dfEx : DFrame :=
  { index := [0], refNames := ["w", "p", "s"], rows := [(10, [1, 1, 1])] }

/-- Concrete two-row dataframe with an unsorted index, for the formatter
witness. -/
def dfEx2 : DFrame :=
  { index := [5, 3], refNames := ["w", "p", "s"], rows := [(1, [1, 1, 1]), (2, [0, 1, 2])] }

/-- Concrete invocation whose candidate coefficients are rejected by the
validator: the stored mean for `"w"` is `100` while the fit gives `1`. -/
def envC2 : SplitEnv :=
  { pid := 1
    input_split_function := dfEx
    fitted := [1, 1, 1]
    mean_coefs := [("w", 100)]
    last_coefdict := [("w", 50)]
    now := 0 }

/-- Concrete invocation whose historical mean mapping holds only an `"MAE"`
entry, far below the freshly computed MAE of `7`. -/
def envC4a : SplitEnv :=
  { pid := 1
    input_split_function := dfEx
    fitted := [1, 1, 1]
    mean_coefs := [("MAE", 1)]
    last_coefdict := []
    now := 0 }

/-- The same invocation as `envC4a` with the `"MAE"` entry removed from the
historical mean mapping (all model-weight keys agree: there are none). -/
def envC4b : SplitEnv :=
  { pid := 1
    input_split_function := dfEx
    fitted := [1, 1, 1]
    mean_coefs := []
    last_coefdict := []
    now := 0 }


/-! Helper lemmas about lookups, updates and fold-based extrema. -/

theorem lookupCoef_dictUpdate (d : CoefDict) (k : String) (v : ℚ) :
    lookupCoef k (dictUpdate d k v) = some v := by
  induction d with
  | nil => simp [dictUpdate, lookupCoef]
  | cons hd tl ih =>
    by_cases hhd : hd.1 = k
    · have hany : (hd :: tl).any (fun p => p.1 = k) = true := by
        simp [List.any_cons, hhd]
      simp [dictUpdate, hany, lookupCoef, hhd]
    · by_cases htl : tl.any (fun p => p.1 = k) = true
      · have hany : (hd :: tl).any (fun p => p.1 = k) = true := by
          simp [List.any_cons, htl]
        have ih2 := ih
        rw [dictUpdate, if_pos htl] at ih2
        simp only [dictUpdate, hany, if_true, List.map_cons, if_neg hhd]
        rw [lookupCoef, if_neg hhd]
        exact ih2
      · have hany : ¬ (hd :: tl).any (fun p => p.1 = k) = true := by
          simp only [List.any_cons, Bool.or_eq_true, decide_eq_true_eq]
          rintro (h | h)
          · exact hhd h
          · exact htl (by simpa using h)
        have ih2 := ih
        rw [dictUpdate, if_neg (by simpa using htl)] at ih2
        simp only [dictUpdate, if_neg hany, List.cons_append]
        rw [lookupCoef, if_neg hhd]
        exact ih2

theorem foldl_min_le_init {α : Type} [LinearOrder α] (xs : List α) (a : α) :
    xs.foldl min a ≤ a := by
  induction xs generalizing a with
  | nil => exact le_refl a
  | cons x xs ih =>
    rw [List.foldl_cons]
    exact le_trans (ih (min a x)) (min_le_left a x)

theorem foldl_min_le_mem {α : Type} [LinearOrder α] (xs : List α) (a t : α)
    (ht : t ∈ xs) : xs.foldl min a ≤ t := by
  induction xs generalizing a with
  | nil => cases ht
  | cons x xs ih =>
    rw [List.foldl_cons]
    rcases List.mem_cons.mp ht with h | h
    · subst h
      exact le_trans (foldl_min_le_init xs (min a t)) (min_le_right a t)
    · exact ih (min a x) h

theorem foldl_min_mem {α : Type} [LinearOrder α] (xs : List α) (a : α) :
    xs.foldl min a = a ∨ xs.foldl min a ∈ xs := by
  induction xs generalizing a with
  | nil => left; rfl
  | cons x xs ih =>
    rw [List.foldl_cons]
    rcases ih (min a x) with h | h
    · rcases le_total a x with hax | hxa
      · left; rw [h, min_eq_left hax]
      · right; rw [h, min_eq_right hxa]; exact List.mem_cons_self x xs
    · right; exact List.mem_cons_of_mem x h

theorem foldl_max_init_le {α : Type} [LinearOrder α] (xs : List α) (a : α) :
    a ≤ xs.foldl max a := by
  induction xs generalizing a with
  | nil => exact le_refl a
  | cons x xs ih =>
    rw [List.foldl_cons]
    exact le_trans (le_max_left a x) (ih (max a x))

theorem foldl_max_mem_le {α : Type} [LinearOrder α] (xs : List α) (a t : α)
    (ht : t ∈ xs) : t ≤ xs.foldl max a := by
  induction xs generalizing a with
  | nil => cases ht
  | cons x xs ih =>
    rw [List.foldl_cons]
    rcases List.mem_cons.mp ht with h | h
    · subst h
      exact le_trans (le_max_right a t) (foldl_max_init_le xs (max a t))
    · exact ih (max a x) h

theorem foldl_max_mem {α : Type} [LinearOrder α] (xs : List α) (a : α) :
    xs.foldl max a = a ∨ xs.foldl max a ∈ xs := by
  induction xs generalizing a with
  | nil => left; rfl
  | cons x xs ih =>
    rw [List.foldl_cons]
    rcases ih (max a x) with h | h
    · rcases le_total x a with hxa | hax
      · left; rw [h, max_eq_left hxa]
      · right; rw [h, max_eq_right hax]; exact List.mem_cons_self x xs
    · right; exact List.mem_cons_of_mem x h

theorem seriesMin_mem {α : Type} [LinearOrder α] [Zero α] (l : List α) (h : l ≠ []) :
    seriesMin l ∈ l := by
  cases l with
  | nil => exact absurd rfl h
  | cons x xs =>
    rw [seriesMin]
    rcases foldl_min_mem xs x with h2 | h2
    · rw [h2]; exact List.mem_cons_self x xs
    · exact List.mem_cons_of_mem x h2

theorem seriesMin_le {α : Type} [LinearOrder α] [Zero α] (l : List α) (t : α)
    (ht : t ∈ l) : seriesMin l ≤ t := by
  cases l with
  | nil => cases ht
  | cons x xs =>
    rw [seriesMin]
    rcases List.mem_cons.mp ht with h | h
    · subst h; exact foldl_min_le_init xs t
    · exact foldl_min_le_mem xs x t h

theorem seriesMax_mem {α : Type} [LinearOrder α] [Zero α] (l : List α) (h : l ≠ []) :
    seriesMax l ∈ l := by
  cases l with
  | nil => exact absurd rfl h
  | cons x xs =>
    rw [seriesMax]
    rcases foldl_max_mem xs x with h2 | h2
    · rw [h2]; exact List.mem_cons_self x xs
    · exact List.mem_cons_of_mem x h2

theorem le_seriesMax {α : Type} [LinearOrder α] [Zero α] (l : List α) (t : α)
    (ht : t ∈ l) : t ≤ seriesMax l := by
  cases l with
  | nil => cases ht
  | cons x xs =>
    rw [seriesMax]
    rcases List.mem_cons.mp ht with h | h
    · subst h; exact foldl_max_init_le xs t
    · exact foldl_max_mem_le xs x t h

/-! Claim theorems. -/

/-- Claim C5 (confirmed): `are_new_coefs_valid(new_coefs, mean_coefs)` returns
`True` exactly when every key of `mean_coefs` has a (necessarily found) value in
`new_coefs` within `COEF_MAX_PCT_DIFF` relative deviation; the boundary examples
`mean a=10, new a=13` (valid), `new a=13.01` (invalid), and the empty-mean
bootstrap case behave as specified. -/
theorem C5_validator_rule (new_coefs mean_coefs : CoefDict) :
    (are_new_coefs_valid new_coefs mean_coefs = some true ↔
      ∀ p ∈ mean_coefs, ∃ nval, lookupCoef p.1 new_coefs = some nval ∧
        |p.2 - nval| ≤ COEF_MAX_PCT_DIFF * |p.2|) ∧
    are_new_coefs_valid [("a", 13)] [("a", 10)] = some true ∧
    are_new_coefs_valid [("a", 1301 / 100)] [("a", 10)] = some false ∧
    are_new_coefs_valid new_coefs [] = some true := by
  refine ⟨?_, ?_, ?_, rfl⟩
  · induction mean_coefs with
    | nil => simp [are_new_coefs_valid]
    | cons hd tl ih =>
      rcases hd with ⟨k, mv⟩
      cases hlk : lookupCoef k new_coefs with
      | none =>
        simp only [are_new_coefs_valid, hlk, Option.none_bind]
        constructor
        · intro hcontra; cases hcontra
        · intro hall
          rcases hall (k, mv) (List.mem_cons_self _ _) with ⟨nval, hnval, _⟩
          rw [hlk] at hnval
          cases hnval
      | some nv =>
        by_cases hgt : |mv - nv| > COEF_MAX_PCT_DIFF * |mv|
        · simp only [are_new_coefs_valid, hlk, Option.some_bind, if_pos hgt]
          constructor
          · intro hcontra; cases hcontra
          · intro hall
            rcases hall (k, mv) (List.mem_cons_self _ _) with ⟨nval, hnval, hle⟩
            rw [hlk] at hnval
            cases hnval
            exact absurd hle (not_le.mpr hgt)
        · simp only [are_new_coefs_valid, hlk, Option.some_bind, if_neg hgt]
          rw [ih, List.forall_mem_cons]
          constructor
          · intro h
            exact ⟨⟨nv, hlk, le_of_not_lt hgt⟩, h⟩
          · intro h
            exact h.2
  · simp [are_new_coefs_valid, lookupCoef, COEF_MAX_PCT_DIFF]
    norm_num [abs_of_neg, abs_of_nonneg]
  · simp [are_new_coefs_valid, lookupCoef, COEF_MAX_PCT_DIFF]
    norm_num [abs_of_neg, abs_of_nonneg]

/-- Claim C10 (corrected): the original claim — a KeyError for *every*
`mean_coefs` containing a key absent from `new_coefs` — is false, because an
earlier key already violating the 30% bound makes the loop return `False`
before the missing key is reached (see `C10_counterexample`).  Amended: the
lookup error is raised whenever a key of `mean_coefs` is absent from
`new_coefs` and all keys that are present satisfy the bound; and the function
returns a boolean whenever every key of `mean_coefs` is present in
`new_coefs`. -/
theorem C10_keyerror (new_coefs mean_coefs : CoefDict) :
    ((∃ p ∈ mean_coefs, lookupCoef p.1 new_coefs = none) →
      (∀ p ∈ mean_coefs, ∀ nval, lookupCoef p.1 new_coefs = some nval →
        |p.2 - nval| ≤ COEF_MAX_PCT_DIFF * |p.2|) →
      are_new_coefs_valid new_coefs mean_coefs = none) ∧
    ((∀ p ∈ mean_coefs, (lookupCoef p.1 new_coefs).isSome = true) →
      ∃ b, are_new_coefs_valid new_coefs mean_coefs = some b) := by
  constructor
  · induction mean_coefs with
    | nil =>
      rintro ⟨p, hp, _⟩ _
      cases hp
    | cons hd tl ih =>
      rcases hd with ⟨k, mv⟩
      rintro ⟨p, hp, hnone⟩ hall
      cases hlk : lookupCoef k new_coefs with
      | none => simp [are_new_coefs_valid, hlk]
      | some nv =>
        have hle := hall (k, mv) (List.mem_cons_self _ _) nv hlk
        simp only [are_new_coefs_valid, hlk, Option.some_bind,
          if_neg (not_lt.mpr hle)]
        rcases List.mem_cons.mp hp with hph | hpt
        · rw [hph] at hnone
          rw [hnone] at hlk
          cases hlk
        · exact ih ⟨p, hpt, hnone⟩
            (fun q hq nval hnval => hall q (List.mem_cons_of_mem _ hq) nval hnval)
  · induction mean_coefs with
    | nil => intro _; exact ⟨true, rfl⟩
    | cons hd tl ih =>
      rcases hd with ⟨k, mv⟩
      intro hall
      have hk := hall (k, mv) (List.mem_cons_self _ _)
      cases hlk : lookupCoef k new_coefs with
      | none => rw [hlk] at hk; cases hk
      | some nv =>
        by_cases hgt : |mv - nv| > COEF_MAX_PCT_DIFF * |mv|
        · exact ⟨false, by simp [are_new_coefs_valid, hlk, hgt]⟩
        · rcases ih (fun q hq => hall q (List.mem_cons_of_mem _ hq)) with ⟨b, hb⟩
          exact ⟨b, by simp only [are_new_coefs_valid, hlk, Option.some_bind,
            if_neg hgt]; exact hb⟩

/-- Claim C10, counterexample to the original statement: `mean_coefs` contains
the key `"b"`, absent from `new_coefs`, yet the call returns the boolean
`False` (no lookup error), because the key `"a"` violates the bound first. -/
theorem C10_counterexample :
    lookupCoef "b" [("a", (1 : ℚ))] = none ∧
    are_new_coefs_valid [("a", (1 : ℚ))] [("a", 100), ("b", 1)] = some false := by
  constructor
  · rfl
  · simp [are_new_coefs_valid, lookupCoef, COEF_MAX_PCT_DIFF]
    norm_num [abs_of_nonneg]

/-- Claim C10, witness: both amended directions applied at concrete inputs. -/
theorem C10_witness :
    are_new_coefs_valid [("a", (1 : ℚ))] [("b", 2)] = none ∧
    (∃ b, are_new_coefs_valid [("a", (1 : ℚ))] [("a", 1)] = some b) := by
  constructor
  · refine (C10_keyerror [("a", (1 : ℚ))] [("b", 2)]).1 ⟨("b", 2), ?_, ?_⟩ ?_
    · exact List.mem_cons_self _ _
    · rfl
    · rintro p hp nval hnval
      simp only [List.mem_singleton] at hp
      rw [hp] at hnval
      simp [lookupCoef] at hnval
  · refine (C10_keyerror [("a", (1 : ℚ))] [("a", 1)]).2 ?_
    rintro p hp
    simp only [List.mem_singleton] at hp
    rw [hp]
    rfl

/-- Claim C1 (corrected): the original claim `residual == estimate - load` is
false — the source computes
`Residu = -1 * components.iloc[:, 0:2].diff(axis=1).iloc[:, 1]`, i.e.
`-(estimate - load)` (see `C1_counterexample`).  Amended: for every row of the
ComponentsFrame, `residual = load - estimate` exactly. -/
theorem C1_residual (df : DFrame) (zero_bound : Bool) (fitted : List ℚ) :
    ∀ r ∈ (find_components df zero_bound fitted).1,
      r.Residu = r.load - r.Inschatting := by
  intro r hr
  simp only [find_components, List.mem_map] at hr
  rcases hr with ⟨row, _, rfl⟩
  simp only [mkComponentsRow]
  ring

/-- Claim C1, counterexample to the original sign: on a one-row frame with
`load = 10` and estimate `3`, the residual column holds `7 = load - estimate`,
while `estimate - load = -7`. -/
theorem C1_counterexample :
    (find_components dfEx true [1, 1, 1]).1 =
      [{ load := 10, Inschatting := 3, p0 := 2, Windopwek := 1, ZonneOpwek := 1,
         StandaardVerbruik := 1, Residu := 7 }] ∧
    ¬ ((7 : ℚ) = 3 - 10) := by
  constructor
  · simp [find_components, mkComponentsRow, dot, clampSmall, p0_guess, nedu_scaler,
      seriesMin, seriesMax, loads, dfEx]
    norm_num
  · norm_num

/-- Claim C1, witness for the amended statement at a concrete row. -/
theorem C1_witness :
    ({ load := 10, Inschatting := 3, p0 := 2, Windopwek := 1, ZonneOpwek := 1,
       StandaardVerbruik := 1, Residu := 7 } : ComponentsRow) ∈
      (find_components dfEx true [1, 1, 1]).1 ∧
    (7 : ℚ) = 10 - 3 := by
  have hmem : (⟨10, 3, 2, 1, 1, 1, 7⟩ : ComponentsRow) ∈
      (find_components dfEx true [1, 1, 1]).1 := by
    simp [find_components, mkComponentsRow, dot, clampSmall, p0_guess, nedu_scaler,
      seriesMin, seriesMax, loads, dfEx]
    norm_num
  exact ⟨hmem, C1_residual dfEx true [1, 1, 1] _ hmem⟩

/-- `getD` of a zip of two lists, inside both lengths. -/
theorem getD_zip_pair (ks : List String) (vs : List ℚ) (i : ℕ)
    (hk : i < ks.length) (hv : i < vs.length) :
    (ks.zip vs).getD i ("", 0) = (ks.getD i "", vs.getD i 0) := by
  induction ks generalizing vs i with
  | nil => cases hk
  | cons k ks ih =>
    cases vs with
    | nil => cases hv
    | cons v vs =>
      cases i with
      | zero => rfl
      | succ n =>
        simp only [List.zip_cons_cons, List.getD_cons_succ]
        exact ih vs n (by simpa using hk) (by simpa using hv)

/-- `getD` through the near-zero clamp, inside the length. -/
theorem getD_clampSmall (vs : List ℚ) (i : ℕ) (hv : i < vs.length) :
    (clampSmall vs).getD i 0 =
      (if vs.getD i 0 < 1 / 10 then 0 else vs.getD i 0) := by
  induction vs generalizing i with
  | nil => cases hv
  | cons v vs ih =>
    cases i with
    | zero => rfl
    | succ n =>
      simp only [clampSmall, List.map_cons, List.getD_cons_succ]
      exact ih n (by simpa using hv)

/-- Claim C3 (corrected): the original claim — clamp to `0` exactly when the
*absolute* value is below `0.1`, keeping negative weights when `zero_bound` is
false — is false: the source runs `coefs[coefs < 0.1] = 0`, a signed
comparison, so a weight of `-5` is also zeroed (see `C3_counterexample`).
Amended: the coefficient reported for column `i` is `0` exactly when the
fitted weight is (signed) below `0.1`, and is the unchanged fitted weight
otherwise, for every input table and both values of `zero_bound`. -/
theorem C3_noise_floor (df : DFrame) (zero_bound : Bool) (fitted : List ℚ)
    (i : ℕ) (hi : i < fitted.length) (hn : i < df.refNames.length) :
    ((find_components df zero_bound fitted).2.getD i ("", 0)).2 =
      (if fitted.getD i 0 < 1 / 10 then 0 else fitted.getD i 0) := by
  have hlen : i < (clampSmall fitted).length := by
    simpa [clampSmall] using hi
  simp only [find_components]
  rw [getD_zip_pair _ _ _ hn hlen]
  exact getD_clampSmall fitted i hi

/-- Claim C3, counterexample to the original statement: with
`zero_bound = false` the fitted weight `-5` has `|-5| ≥ 0.1` yet is reported
as exactly `0`. -/
theorem C3_counterexample :
    (find_components dfEx false [-5, 1, 1]).2 = [("w", 0), ("p", 1), ("s", 1)] ∧
    ¬ (|(-5 : ℚ)| < 1 / 10) := by
  constructor
  · simp [find_components, clampSmall, dfEx]
    norm_num
  · norm_num [abs_of_neg]

/-- Claim C3, witness for the amended statement at index `0` of the concrete
fit. -/
theorem C3_witness :
    (0 < ([-5, 1, 1] : List ℚ).length ∧ 0 < dfEx.refNames.length) ∧
    ((find_components dfEx false [-5, 1, 1]).2.getD 0 ("", 0)).2 =
      (if ([-5, 1, 1] : List ℚ).getD 0 0 < 1 / 10 then 0
       else ([-5, 1, 1] : List ℚ).getD 0 0) :=
  ⟨⟨by simp, by simp [dfEx]⟩,
    C3_noise_floor dfEx false [-5, 1, 1] 0 (by simp) (by simp [dfEx])⟩

/-- Claim C8 (confirmed): the initial guess is `1.0` for the wind and solar
reference columns and `(max(load) - min(load)) / 10` for each of the remaining
standard-profile columns (`seriesMax`/`seriesMin` really are the extrema of the
`load` column), and the `p0` (baseline) column of the ComponentsFrame is the
weighted sum of the reference columns with exactly these initial-guess weights,
independent of the fitted weights. -/
theorem C8_initial_guess (df : DFrame) (zero_bound : Bool)
    (fitted fitted2 : List ℚ) (hne : df.rows ≠ []) :
    p0_guess df = [1, 1] ++ List.replicate (df.refNames.length - 2)
        ((seriesMax (loads df) - seriesMin (loads df)) / 10) ∧
    seriesMax (loads df) ∈ loads df ∧
    (∀ x ∈ loads df, x ≤ seriesMax (loads df)) ∧
    seriesMin (loads df) ∈ loads df ∧
    (∀ x ∈ loads df, seriesMin (loads df) ≤ x) ∧
    (find_components df zero_bound fitted).1.map (fun r => r.p0) =
      df.rows.map (fun row => dot row.2 (p0_guess df)) ∧
    (find_components df zero_bound fitted).1.map (fun r => r.p0) =
      (find_components df zero_bound fitted2).1.map (fun r => r.p0) := by
  have hnl : loads df ≠ [] := by
    intro h
    exact hne (List.map_eq_nil_iff.mp h)
  have hbase : ∀ coefs : List ℚ,
      (df.rows.map (mkComponentsRow coefs (p0_guess df))).map (fun r => r.p0) =
        df.rows.map (fun row => dot row.2 (p0_guess df)) := by
    intro coefs
    rw [List.map_map]
    rfl
  refine ⟨rfl, seriesMax_mem _ hnl, fun x hx => le_seriesMax _ x hx,
    seriesMin_mem _ hnl, fun x hx => seriesMin_le _ x hx, ?_, ?_⟩
  · simpa only [find_components] using hbase (clampSmall fitted)
  · simp only [find_components]
    rw [hbase (clampSmall fitted), hbase (clampSmall fitted2)]

/-- Claim C8, witness at a concrete one-row table and two different solver
outputs. -/
theorem C8_witness :
    dfEx.rows ≠ [] ∧
    (p0_guess dfEx = [1, 1] ++ List.replicate (dfEx.refNames.length - 2)
        ((seriesMax (loads dfEx) - seriesMin (loads dfEx)) / 10) ∧
      seriesMax (loads dfEx) ∈ loads dfEx ∧
      (∀ x ∈ loads dfEx, x ≤ seriesMax (loads dfEx)) ∧
      seriesMin (loads dfEx) ∈ loads dfEx ∧
      (∀ x ∈ loads dfEx, seriesMin (loads dfEx) ≤ x) ∧
      (find_components dfEx true [1, 1, 1]).1.map (fun r => r.p0) =
        dfEx.rows.map (fun row => dot row.2 (p0_guess dfEx)) ∧
      (find_components dfEx true [1, 1, 1]).1.map (fun r => r.p0) =
        (find_components dfEx true [0, 0, 0]).1.map (fun r => r.p0)) :=
  ⟨by simp [dfEx], C8_initial_guess dfEx true [1, 1, 1] [0, 0, 0] (by simp [dfEx])⟩

/-- Claim C2 (confirmed): whenever the validator rejects the candidate
coefficients, `split_energy` writes nothing to the database, posts exactly one
alert carrying the rejected candidate record, and returns the last known
coefficient set reformatted through `convert_coefdict_to_coefsdf` — not the
rejected record. -/
theorem C2_rejection (env : SplitEnv)
    (hrej : are_new_coefs_valid (split_candidate env) env.mean_coefs = some false) :
    split_energy env = some
      { returned := convert_coefdict_to_coefsdf env.pid env.input_split_function
          env.last_coefdict env.now
        alerts := [split_candidate_df env]
        writes := [] } := by
  simp [split_energy, hrej]

/-- Claim C2, witness: a concrete rejected invocation. -/
theorem C2_witness :
    split_energy envC2 = some
      { returned := convert_coefdict_to_coefsdf envC2.pid envC2.input_split_function
          envC2.last_coefdict envC2.now
        alerts := [split_candidate_df envC2]
        writes := [] } :=
  C2_rejection envC2 (by
    simp [are_new_coefs_valid, lookupCoef, COEF_MAX_PCT_DIFF, split_candidate,
      dictUpdate, split_mae, split_error_list, find_components, mkComponentsRow,
      dot, clampSmall, p0_guess, nedu_scaler, seriesMin, seriesMax, loads, envC2, dfEx]
    norm_num [abs_of_neg, abs_of_pos, abs_of_nonneg])

/-- Claim C4 (corrected): the original claim — that the `"MAE"` entry is
excluded from the validation and never changes the boolean outcome — is false:
the orchestrator validates the candidate dict *after* `coefdict.update` has
added the `"MAE"` entry, and the validator loops over every key of the
historical mean, so a `"MAE"` key there is compared like any model weight
(see `C4_counterexample`).  Amended: the validation is applied to the full
candidate including its `"MAE"` entry, and its boolean outcome alone decides
between the persist path and the alert path. -/
theorem C4_mae_in_validation (env : SplitEnv) (b : Bool)
    (hv : are_new_coefs_valid (split_candidate env) env.mean_coefs = some b) :
    lookupCoef "MAE" (split_candidate env) = some (split_mae env) ∧
    split_energy env = some
      (if b = false then
        { returned := convert_coefdict_to_coefsdf env.pid env.input_split_function
            env.last_coefdict env.now
          alerts := [split_candidate_df env]
          writes := [] }
      else
        { returned := split_candidate_df env
          alerts := []
          writes := [split_candidate_df env] }) := by
  refine ⟨lookupCoef_dictUpdate _ _ _, ?_⟩
  cases b with
  | false => simp [split_energy, hv]
  | true => simp [split_energy, hv]

/-- Claim C4, counterexample to the original statement: two invocations that
agree on the input table, the solver output and all model-weight history and
differ only in the presence of an `"MAE"` entry in the historical mean get
opposite validation outcomes, so the run with the `"MAE"` entry alerts without
writing while the other writes. -/
theorem C4_counterexample :
    envC4a.mean_coefs = [("MAE", 1)] ∧
    envC4b.mean_coefs = [] ∧
    envC4a.input_split_function = envC4b.input_split_function ∧
    envC4a.fitted = envC4b.fitted ∧
    are_new_coefs_valid (split_candidate envC4a) envC4a.mean_coefs = some false ∧
    are_new_coefs_valid (split_candidate envC4b) envC4b.mean_coefs = some true ∧
    split_energy envC4a = some
      { returned := convert_coefdict_to_coefsdf envC4a.pid envC4a.input_split_function
          envC4a.last_coefdict envC4a.now
        alerts := [split_candidate_df envC4a]
        writes := [] } ∧
    split_energy envC4b = some
      { returned := split_candidate_df envC4b
        alerts := []
        writes := [split_candidate_df envC4b] } := by
  refine ⟨rfl, rfl, rfl, rfl, ?_, ?_, ?_, ?_⟩
  · simp [are_new_coefs_valid, lookupCoef, COEF_MAX_PCT_DIFF, split_candidate,
      dictUpdate, split_mae, split_error_list, find_components, mkComponentsRow,
      dot, clampSmall, p0_guess, nedu_scaler, seriesMin, seriesMax, loads, envC4a, dfEx]
    norm_num [abs_of_neg, abs_of_pos, abs_of_nonneg]
  · simp [are_new_coefs_valid, envC4b]
  · simp [split_energy, are_new_coefs_valid, lookupCoef, COEF_MAX_PCT_DIFF,
      split_candidate, dictUpdate, split_mae, split_error_list, find_components,
      mkComponentsRow, dot, clampSmall, p0_guess, nedu_scaler, seriesMin, seriesMax,
      loads, envC4a, dfEx]
    norm_num [abs_of_neg, abs_of_pos, abs_of_nonneg]
  · simp [split_energy, are_new_coefs_valid, envC4b]

/-- Claim C4, witness for the amended statement at the concrete rejected
invocation. -/
theorem C4_witness :
    lookupCoef "MAE" (split_candidate envC4a) = some (split_mae envC4a) ∧
    split_energy envC4a = some
      (if false = false then
        { returned := convert_coefdict_to_coefsdf envC4a.pid envC4a.input_split_function
            envC4a.last_coefdict envC4a.now
          alerts := [split_candidate_df envC4a]
          writes := [] }
      else
        { returned := split_candidate_df envC4a
          alerts := []
          writes := [split_candidate_df envC4a] }) :=
  C4_mae_in_validation envC4a false (by
    simp [are_new_coefs_valid, lookupCoef, COEF_MAX_PCT_DIFF, split_candidate,
      dictUpdate, split_mae, split_error_list, find_components, mkComponentsRow,
      dot, clampSmall, p0_guess, nedu_scaler, seriesMin, seriesMax, loads, envC4a, dfEx]
    norm_num [abs_of_neg, abs_of_pos, abs_of_nonneg])

/-- Claim C7 (confirmed): the value stored under key `"MAE"` in the candidate
coefficient set is the mean over all ComponentsFrame rows of
`|load - estimate|` (the source computes `|estimate - load|`, which is the
same number). -/
theorem C7_mae (env : SplitEnv)
    (hne : (find_components env.input_split_function true env.fitted).1 ≠ []) :
    lookupCoef "MAE" (split_candidate env) =
      some (((find_components env.input_split_function true env.fitted).1.map
          (fun r => |r.load - r.Inschatting|)).sum /
        (((find_components env.input_split_function true env.fitted).1.length : ℚ))) := by
  rw [split_candidate, lookupCoef_dictUpdate]
  have habs : ((fun e : ℚ => |e|) ∘ fun r : ComponentsRow => r.Inschatting - r.load) =
      fun r : ComponentsRow => |r.load - r.Inschatting| := by
    funext r
    exact abs_sub_comm _ _
  rw [split_mae, split_error_list, List.map_map, habs, List.length_map]

/-- Claim C7, witness at a concrete invocation. -/
theorem C7_witness :
    (find_components envC2.input_split_function true envC2.fitted).1 ≠ [] ∧
    lookupCoef "MAE" (split_candidate envC2) =
      some (((find_components envC2.input_split_function true envC2.fitted).1.map
          (fun r => |r.load - r.Inschatting|)).sum /
        (((find_components envC2.input_split_function true envC2.fitted).1.length : ℚ))) :=
  ⟨by simp [find_components, envC2, dfEx],
    C7_mae envC2 (by simp [find_components, envC2, dfEx])⟩

/-- Claim C6 (confirmed): the formatter yields exactly one row per coefficient
entry, and every row carries the job id, `period_start_date` equal to the
minimum of the input table index and `period_end_date` equal to its maximum
(for a nonempty index, where the pandas extrema are defined). -/
theorem C6_formatter (pjId : ℤ) (df : DFrame) (coefdict : CoefDict) (now : ℤ)
    (hne : df.index ≠ []) :
    (convert_coefdict_to_coefsdf pjId df coefdict now).length = coefdict.length ∧
    ∀ r ∈ convert_coefdict_to_coefsdf pjId df coefdict now,
      r.pid = pjId ∧
      r.date_start ∈ df.index ∧ (∀ t ∈ df.index, r.date_start ≤ t) ∧
      r.date_end ∈ df.index ∧ (∀ t ∈ df.index, t ≤ r.date_end) := by
  constructor
  · simp [convert_coefdict_to_coefsdf]
  · intro r hr
    simp only [convert_coefdict_to_coefsdf, List.mem_map] at hr
    rcases hr with ⟨p, _, rfl⟩
    exact ⟨rfl, seriesMin_mem _ hne, fun t ht => seriesMin_le _ t ht,
      seriesMax_mem _ hne, fun t ht => le_seriesMax _ t ht⟩

/-- Claim C6, witness: a two-coefficient dict over a two-row table with an
unsorted index. -/
theorem C6_witness :
    dfEx2.index ≠ [] ∧
    ((convert_coefdict_to_coefsdf 1 dfEx2 [("a", 1), ("b", 2)] 0).length =
        ([("a", (1 : ℚ)), ("b", 2)] : CoefDict).length ∧
      ∀ r ∈ convert_coefdict_to_coefsdf 1 dfEx2 [("a", 1), ("b", 2)] 0,
        r.pid = 1 ∧
        r.date_start ∈ dfEx2.index ∧ (∀ t ∈ dfEx2.index, r.date_start ≤ t) ∧
        r.date_end ∈ dfEx2.index ∧ (∀ t ∈ dfEx2.index, t ≤ r.date_end)) :=
  ⟨by simp [dfEx2], C6_formatter 1 dfEx2 [("a", 1), ("b", 2)] 0 (by simp [dfEx2])⟩

/-- Claim C9 (confirmed): in `run_tracy`, a job with a known function name
whose handler raises is first marked `inprogress = 2` and the failure is
posted, but control then falls through to the success path, so the success
message is posted and the job is deleted exactly as for a job whose handler
succeeds; in particular every picked-up job with a known function name is
deleted. -/
theorem C9_delete_on_failure (jobs : List TracyJob) (job : TracyJob)
    (hj : job ∈ jobs) (hk : job.funcName ∈ known_functions) :
    (job.handlerRaises = true → process_tracy_job job =
      [TracyEvent.updateJob job.id 1, TracyEvent.updateJob job.id 2,
       TracyEvent.postTeamsFailure job.id, TracyEvent.postTeamsSuccess job.id,
       TracyEvent.deleteJob job.id]) ∧
    (job.handlerRaises = false → process_tracy_job job =
      [TracyEvent.updateJob job.id 1, TracyEvent.postTeamsSuccess job.id,
       TracyEvent.deleteJob job.id]) ∧
    TracyEvent.postTeamsSuccess job.id ∈ run_tracy jobs ∧
    TracyEvent.deleteJob job.id ∈ run_tracy jobs := by
  have hsucc : TracyEvent.postTeamsSuccess job.id ∈ process_tracy_job job := by
    cases hr : job.handlerRaises <;> simp [process_tracy_job, hk, hr]
  have hdel : TracyEvent.deleteJob job.id ∈ process_tracy_job job := by
    cases hr : job.handlerRaises <;> simp [process_tracy_job, hk, hr]
  refine ⟨fun h => by simp [process_tracy_job, hk, h],
    fun h => by simp [process_tracy_job, hk, h], ?_, ?_⟩
  · rw [run_tracy]
    exact List.mem_flatten.mpr ⟨process_tracy_job job, List.mem_map_of_mem _ hj, hsucc⟩
  · rw [run_tracy]
    exact List.mem_flatten.mpr ⟨process_tracy_job job, List.mem_map_of_mem _ hj, hdel⟩

/-- Claim C9, witness: a one-job todolist whose handler raises. -/
theorem C9_witness :
    (⟨7, "train_model", "12", true⟩ : TracyJob) ∈
      [(⟨7, "train_model", "12", true⟩ : TracyJob)] ∧
    (⟨7, "train_model", "12", true⟩ : TracyJob).funcName ∈ known_functions ∧
    ((⟨7, "train_model", "12", true⟩ : TracyJob).handlerRaises = true →
      process_tracy_job ⟨7, "train_model", "12", true⟩ =
        [TracyEvent.updateJob 7 1, TracyEvent.updateJob 7 2,
         TracyEvent.postTeamsFailure 7, TracyEvent.postTeamsSuccess 7,
         TracyEvent.deleteJob 7]) ∧
    TracyEvent.deleteJob 7 ∈ run_tracy [⟨7, "train_model", "12", true⟩] := by
  have h := C9_delete_on_failure [⟨7, "train_model", "12", true⟩]
    ⟨7, "train_model", "12", true⟩ (List.mem_singleton.mpr rfl)
    (by simp [known_functions])
  exact ⟨List.mem_singleton.mpr rfl, by simp [known_functions], h.1, h.2.2.2⟩

end OpenSTF
